import Mathlib

/-!
# Shallow embedding of the furniture-shop refund core

Embeds, from the Python source:
- `src/backend/src/models/refund_case.py` (`RefundCase` and its methods),
- `src/backend/src/repositories/refund_repository.py` (`RefundCaseRepository`),
- `src/backend/src/services/refund_service.py` (`RefundCaseService`).

Conventions of the embedding:
- Python exceptions become `Except ServiceError`; the code raises before any
  mutation, so a raising call returns `.error` and produces no new state.
- Python `datetime.utcnow()` is threaded as explicit parameters (`today : Date`
  for date-only logic, `now : Nat` for opaque timestamps); timestamps are
  opaque because no property depends on their value.
- Python `float` money amounts are modelled as `ℚ`.
- Python dicts keyed by strings are association lists; `dictGet` returns the
  last binding, matching dict construction where later keys override earlier.
- `datetime.fromisoformat(s).date()` is modelled by `parseIsoDate`, which
  accepts `YYYY-MM-DD` (a valid proleptic-Gregorian date) optionally followed
  by a `T` or space and a time part; the time part is dropped unvalidated
  since `.date()` discards it and no property depends on it.
- The persistence layer (`BaseRepository`, an external collaborator per the
  spec) is modelled as an in-memory list of records: `find_by_id` searches by
  id, `create` appends, `update` replaces by id.
-/

namespace FurnitureShop

/-- `RefundCaseStatus` from `refund_case.py`: Pending / Approved / Rejected / Completed. -/
inductive RefundCaseStatus where
  | pending
  | approved
  | rejected
  | completed
deriving DecidableEq, Repr

/-- The string value of each `RefundCaseStatus` member (it is a `str` enum). -/
def RefundCaseStatus.value : RefundCaseStatus → String
  | .pending => "Pending"
  | .approved => "Approved"
  | .rejected => "Rejected"
  | .completed => "Completed"

/-- `EligibilityStatus` from `refund_case.py`: Eligible / Partially Eligible / Ineligible. -/
inductive EligibilityStatus where
  | eligible
  | partiallyEligible
  | ineligible
deriving DecidableEq, Repr

/-- The string value of each `EligibilityStatus` member. -/
def EligibilityStatus.value : EligibilityStatus → String
  | .eligible => "Eligible"
  | .partiallyEligible => "Partially Eligible"
  | .ineligible => "Ineligible"

/-- A calendar date (proleptic Gregorian), as produced by `datetime.date`. -/
structure Date where
  year : Nat
  month : Nat
  day : Nat
deriving DecidableEq, Repr

/-- Gregorian leap-year rule. -/
def isLeap (y : Nat) : Bool :=
  y % 4 = 0 && (y % 100 ≠ 0 || y % 400 = 0)

/-- Number of days in month `m` of year `y` (1-based month). -/
def daysInMonth (y m : Nat) : Nat :=
  if m = 2 then (if isLeap y then 29 else 28)
  else if m = 4 ∨ m = 6 ∨ m = 9 ∨ m = 11 then 30
  else 31

/-- Days in all months strictly before month `m` of year `y`. -/
def daysBeforeMonth (y m : Nat) : Nat :=
  (List.range (m - 1)).foldl (fun acc i => acc + daysInMonth y (i + 1)) 0

/-- Proleptic-Gregorian ordinal of a date (0001-01-01 has ordinal 1), as
`datetime.date.toordinal`. -/
def Date.toOrdinal (d : Date) : Nat :=
  365 * (d.year - 1) + (d.year - 1) / 4 - (d.year - 1) / 100 + (d.year - 1) / 400
    + daysBeforeMonth d.year d.month + d.day

/-- `(a - b).days` for two dates: the signed difference of their ordinals. -/
def daysBetween (a b : Date) : Int :=
  (a.toOrdinal : Int) - (b.toOrdinal : Int)

/-- Models `datetime.fromisoformat(s).date()`: parses `YYYY-MM-DD`, optionally
followed by `T` or a space and a time-of-day (dropped, since `.date()`
discards it); `none` models the `ValueError` raised on a malformed string. -/
def parseIsoDate (s : String) : Option Date :=
  match s.toList with
  | y1 :: y2 :: y3 :: y4 :: '-' :: m1 :: m2 :: '-' :: d1 :: d2 :: rest =>
    if y1.isDigit && y2.isDigit && y3.isDigit && y4.isDigit
        && m1.isDigit && m2.isDigit && d1.isDigit && d2.isDigit
        && (rest.isEmpty || rest.head? = some 'T' || rest.head? = some ' ') then
      let y := ((y1.toNat - 48) * 10 + (y2.toNat - 48)) * 100
                 + (y3.toNat - 48) * 10 + (y4.toNat - 48)
      let m := (m1.toNat - 48) * 10 + (m2.toNat - 48)
      let d := (d1.toNat - 48) * 10 + (d2.toNat - 48)
      if 1 ≤ y ∧ 1 ≤ m ∧ m ≤ 12 ∧ 1 ≤ d ∧ d ≤ daysInMonth y m then
        some ⟨y, m, d⟩
      else none
    else none
  | _ => none

/-- Python-dict lookup on an association list: the LAST binding of the key
wins, matching dict construction where later assignments override earlier. -/
def dictGet (m : List (String × String)) (k : String) : Option String :=
  (m.reverse.find? (fun kv => kv.1 = k)).map (fun kv => kv.2)

/-- Python truthiness of `delivery_dates.get(pid)`: `None` and `""` are falsy. -/
def truthy (o : Option String) : Option String :=
  match o with
  | some s => if s = "" then none else some s
  | none => none

/-- One entry of the JSON `history` column:
`{action, timestamp, user_id, details}`. -/
structure HistoryEntry where
  action : String
  timestamp : Nat
  user_id : String
  details : List (String × String)
deriving DecidableEq, Repr

/-- One entry of the JSON `products` column of a refund case:
`{product_id, quantity, name, price, refund_amount, delivery_date, eligibility}`. -/
structure RefundProduct where
  product_id : String
  quantity : Int
  name : String
  price : ℚ
  refund_amount : ℚ
  delivery_date : Option String
  eligibility : String
deriving DecidableEq, Repr

/-- A product line of a creation request (`{product_id, quantity, price?, name?}`);
`price` and `name` are read with `.get` defaults in the source. -/
structure ProductLine where
  product_id : String
  quantity : Int
  name : Option String
  price : Option ℚ
deriving DecidableEq, Repr

/-- A product line of a support case (read-only here). -/
structure SCProduct where
  product_id : String
  quantity : Int
  price : Option ℚ
deriving DecidableEq, Repr

/-- `SupportCase` as read by the refund core. -/
structure SupportCase where
  id : String
  customer_id : String
  order_id : String
  status : String
  products : List SCProduct
deriving DecidableEq, Repr

/-- The `RefundCase` record (`refund_case.py`). `eligibility_status` is `none`
until `calculate_eligibility` first sets it. -/
structure RefundCase where
  id : String
  support_case_id : String
  customer_id : String
  order_id : String
  status : RefundCaseStatus
  eligibility_status : Option EligibilityStatus
  total_refund_amount : ℚ
  created_at : Nat
  processed_at : Option Nat
  rejection_reason : Option String
  agent_id : Option String
  products : List RefundProduct
  history : List HistoryEntry
deriving DecidableEq, Repr

/-- One conflicting (refund id, product id, status) triple reported by
`check_existing_refunds`. -/
structure Conflict where
  refund_id : String
  product_id : String
  status : RefundCaseStatus
deriving DecidableEq, Repr

/-- The exceptions raised by the embedded code: `ValidationException`,
`NotFoundException`, `BusinessRuleException` (with or without a conflict-list
detail), Python `ValueError` and `KeyError`. -/
inductive ServiceError where
  | validationError (msg : String)
  | notFoundError (resource : String) (identifier : String)
  | businessRule (msg : String)
  | businessRuleConflicts (msg : String) (conflicts : List Conflict)
  | valueError (msg : String)
  | keyError (key : String)
deriving DecidableEq, Repr

/-- `RefundCase.add_history_entry`: appends one entry to `history`. -/
def RefundCase.add_history_entry (c : RefundCase) (action user_id : String)
    (details : List (String × String)) (now : Nat) : RefundCase :=
  { c with history := c.history ++ [⟨action, now, user_id, details⟩] }

/-- `RefundCase.approve_refund`: guard `status == PENDING` (else `ValueError`),
then set status/processed_at/agent_id and append a history entry. -/
def RefundCase.approve_refund (c : RefundCase) (agent_id : String) (now : Nat) :
    Except ServiceError RefundCase :=
  if c.status ≠ .pending then
    .error (.valueError "Only pending refunds can be approved")
  else
    .ok (({ c with
        status := .approved
        processed_at := some now
        agent_id := some agent_id }).add_history_entry
      "refund_approved" agent_id [("status", "Approved")] now)

/-- `RefundCase.reject_refund`: guard `status == PENDING` (else `ValueError`),
then set status/processed_at/agent_id/rejection_reason and append history. -/
def RefundCase.reject_refund (c : RefundCase) (agent_id reason : String) (now : Nat) :
    Except ServiceError RefundCase :=
  if c.status ≠ .pending then
    .error (.valueError "Only pending refunds can be rejected")
  else
    .ok (({ c with
        status := .rejected
        processed_at := some now
        agent_id := some agent_id
        rejection_reason := some reason }).add_history_entry
      "refund_rejected" agent_id [("status", "Rejected"), ("reason", reason)] now)

/-- `RefundCase.complete_refund`: guard `status == APPROVED` (else `ValueError`),
then set status and append a history entry with actor "system". -/
def RefundCase.complete_refund (c : RefundCase) (now : Nat) :
    Except ServiceError RefundCase :=
  if c.status ≠ .approved then
    .error (.valueError "Only approved refunds can be completed")
  else
    .ok (({ c with status := .completed }).add_history_entry
      "refund_completed" "system" [("status", "Completed")] now)

/-- One per-product entry of the dict returned by
`RefundCase.calculate_eligibility`; `delivery_date`/`days_since_delivery` are
`none` for the no-delivery-date entry, which omits those keys. -/
structure EligEntry where
  product_id : String
  eligible : Bool
  delivery_date : Option String
  days_since_delivery : Option Int
  reason : String
deriving DecidableEq, Repr

/-- The dict returned by `RefundCase.calculate_eligibility`. -/
structure EligReport where
  eligibility_status : String
  eligible_products : List EligEntry
  ineligible_products : List EligEntry
  eligible_count : Nat
  ineligible_count : Nat
deriving DecidableEq, Repr

/-- The per-product body of the loop in `RefundCase.calculate_eligibility`:
look up the delivery date (missing or empty string is falsy → no-date entry),
parse it (malformed → `ValueError`, uncaught in this method), then classify
against the 14-day window. -/
def classifyModelLine (today : Date) (delivery_dates : List (String × String))
    (pid : String) : Except ServiceError EligEntry :=
  match truthy (dictGet delivery_dates pid) with
  | some s =>
    match parseIsoDate s with
    | none => .error (.valueError ("Invalid isoformat string: " ++ s))
    | some d =>
      let days := daysBetween today d
      if days ≤ 14 then
        .ok ⟨pid, true, some s, some days, "Within 14-day refund window"⟩
      else
        .ok ⟨pid, false, some s, some days,
          "Exceeds 14-day refund window by " ++ toString (days - 14) ++ " days"⟩
  | none => .ok ⟨pid, false, none, none, "No delivery date available"⟩

/-- The `for product in self.products` loop of `calculate_eligibility`:
classify each line in order; an iteration that raises aborts the loop. -/
def classifyModelLines (today : Date) (delivery_dates : List (String × String)) :
    List RefundProduct → Except ServiceError (List EligEntry)
  | [] => .ok []
  | p :: ps => do
    let e ← classifyModelLine today delivery_dates p.product_id
    let es ← classifyModelLines today delivery_dates ps
    .ok (e :: es)

/-- `RefundCase.calculate_eligibility`: classify each product line (a malformed
date string raises out of the loop), split into eligible/ineligible lists in
order, derive the overall status, store it on the case and return the report. -/
def RefundCase.calculate_eligibility (c : RefundCase)
    (delivery_dates : List (String × String)) (today : Date) :
    Except ServiceError (RefundCase × EligReport) := do
  let entries ← classifyModelLines today delivery_dates c.products
  let eligible_products := entries.filter (fun e => e.eligible)
  let ineligible_products := entries.filter (fun e => !e.eligible)
  let eligibility_status :=
    if ineligible_products.length = 0 then EligibilityStatus.eligible
    else if eligible_products.length > 0 then EligibilityStatus.partiallyEligible
    else EligibilityStatus.ineligible
  .ok ({ c with eligibility_status := some eligibility_status },
    ⟨eligibility_status.value, eligible_products, ineligible_products,
      eligible_products.length, ineligible_products.length⟩)

/-- `RefundCase.create_from_support_case`: build the per-line records
(`eligibility` hard-coded to "Eligible", `refund_amount = price * quantity`),
accumulate `total_refund_amount`, create the Pending case, run
`calculate_eligibility` (which may raise) and append the
"refund_requested" history entry. -/
def RefundCase.create_from_support_case (support_case_id customer_id order_id : String)
    (products : List ProductLine) (delivery_dates : List (String × String))
    (today : Date) (now : Nat) (newId : String) : Except ServiceError RefundCase :=
  let refund_products : List RefundProduct := products.map (fun p =>
    let price := p.price.getD 0
    { product_id := p.product_id
      quantity := p.quantity
      name := p.name.getD ""
      price := price
      refund_amount := price * (p.quantity : ℚ)
      delivery_date := dictGet delivery_dates p.product_id
      eligibility := "Eligible" })
  let total_amount : ℚ :=
    products.foldl (fun acc p => acc + (p.price.getD 0) * (p.quantity : ℚ)) 0
  let c0 : RefundCase :=
    { id := newId
      support_case_id := support_case_id
      customer_id := customer_id
      order_id := order_id
      status := .pending
      eligibility_status := none
      total_refund_amount := total_amount
      created_at := now
      processed_at := none
      rejection_reason := none
      agent_id := none
      products := refund_products
      history := [] }
  do
    let (c1, rep) ← c0.calculate_eligibility delivery_dates today
    .ok (c1.add_history_entry "refund_requested" customer_id
      [("initial_status", "Pending"), ("eligibility", rep.eligibility_status)] now)

/-! ## Repository layer (`refund_repository.py`)

The persistence collaborator (`BaseRepository`, external per the spec) is a
list of records: `find_by_id` searches by id, `create` appends, `update`
replaces the record with the matching id. -/

namespace RefundCaseRepository

/-- `BaseRepository.find_by_id` for refund cases. -/
def find_by_id (store : List RefundCase) (refund_id : String) : Option RefundCase :=
  store.find? (fun c => c.id = refund_id)

/-- `RefundCaseRepository.find_by_support_case`: all cases for one support case. -/
def find_by_support_case (store : List RefundCase) (support_case_id : String) :
    List RefundCase :=
  store.filter (fun c => c.support_case_id = support_case_id)

/-- `BaseRepository.update`: replace the record whose id matches. -/
def update (store : List RefundCase) (refund_id : String) (c : RefundCase) :
    List RefundCase :=
  store.map (fun r => if r.id = refund_id then c else r)

/-- `RefundCaseRepository.approve_refund`: find the case (else
`NotFoundException`), guard `status != "Pending"` (else
`BusinessRuleException`), mutate via the model method and persist. -/
def approve_refund (store : List RefundCase) (refund_id agent_id : String) (now : Nat) :
    Except ServiceError (RefundCase × List RefundCase) :=
  match find_by_id store refund_id with
  | none => .error (.notFoundError "RefundCase" ("ID " ++ refund_id))
  | some refund_case =>
    if refund_case.status ≠ .pending then
      .error (.businessRule "Only pending refunds can be approved")
    else do
      let c ← refund_case.approve_refund agent_id now
      .ok (c, update store refund_id c)

/-- `RefundCaseRepository.reject_refund`: find (else `NotFoundException`),
guard `status != "Pending"` (else `BusinessRuleException`), mutate, persist. -/
def reject_refund (store : List RefundCase) (refund_id agent_id reason : String)
    (now : Nat) : Except ServiceError (RefundCase × List RefundCase) :=
  match find_by_id store refund_id with
  | none => .error (.notFoundError "RefundCase" ("ID " ++ refund_id))
  | some refund_case =>
    if refund_case.status ≠ .pending then
      .error (.businessRule "Only pending refunds can be rejected")
    else do
      let c ← refund_case.reject_refund agent_id reason now
      .ok (c, update store refund_id c)

/-- `RefundCaseRepository.complete_refund`: find (else `NotFoundException`),
guard `status != "Approved"` (else `BusinessRuleException`), mutate, persist. -/
def complete_refund (store : List RefundCase) (refund_id : String) (now : Nat) :
    Except ServiceError (RefundCase × List RefundCase) :=
  match find_by_id store refund_id with
  | none => .error (.notFoundError "RefundCase" ("ID " ++ refund_id))
  | some refund_case =>
    if refund_case.status ≠ .approved then
      .error (.businessRule "Only approved refunds can be completed")
    else do
      let c ← refund_case.complete_refund now
      .ok (c, update store refund_id c)

/-- `RefundCaseRepository.validate_refund_request`: ids non-falsy, product
list non-empty, every line with a truthy product id and quantity ≥ 1 (a falsy
quantity of 0 fails either way). -/
def validate_refund_request (support_case_id customer_id : String)
    (products : List ProductLine) : Except ServiceError Unit :=
  if support_case_id = "" ∨ customer_id = "" then
    .error (.validationError "Support case ID and customer ID are required")
  else if products.isEmpty then
    .error (.validationError "At least one product must be specified for refund")
  else if products.any (fun p => p.product_id = "" ∨ p.quantity < 1) then
    .error (.validationError "Each product must have a valid product_id and quantity >= 1")
  else
    .ok ()

/-- The result dict of `check_existing_refunds`. -/
structure ConflictCheck where
  has_conflicts : Bool
  conflicting_refunds : List Conflict
deriving DecidableEq, Repr

/-- `RefundCaseRepository.check_existing_refunds`: for every existing refund
case of the support case whose status is Pending or Approved, report a
(refund id, product id, status) triple for each of its product lines whose
product id is among the requested ids. -/
def check_existing_refunds (store : List RefundCase) (support_case_id : String)
    (product_ids : List String) : ConflictCheck :=
  let existing_refunds := find_by_support_case store support_case_id
  let conflicting_refunds :=
    (existing_refunds.filter
        (fun rc => rc.status = .pending ∨ rc.status = .approved)).flatMap
      (fun rc =>
        (rc.products.filter (fun p => p.product_id ∈ product_ids)).map
          (fun p => ⟨rc.id, p.product_id, rc.status⟩))
  ⟨!conflicting_refunds.isEmpty, conflicting_refunds⟩

/-- `RefundCaseRepository.create_refund_case`: build via the factory (which
may raise on a malformed date) and append it to the store. -/
def create_refund_case (store : List RefundCase)
    (support_case_id customer_id order_id : String) (products : List ProductLine)
    (delivery_dates : List (String × String)) (today : Date) (now : Nat)
    (newId : String) : Except ServiceError (RefundCase × List RefundCase) := do
  let refund_case ← RefundCase.create_from_support_case support_case_id customer_id
    order_id products delivery_dates today now newId
  .ok (refund_case, store ++ [refund_case])

end RefundCaseRepository

/-! ## Service layer (`refund_service.py`) -/

/-- The stores the service reads and writes: the support-case subsystem
(read-only) and the refund-case store. -/
structure Env where
  supportCases : List SupportCase
  refundCases : List RefundCase
deriving Repr

/-- `find_by_id` of the support-case repository. -/
def findSupportCase (env : Env) (support_case_id : String) : Option SupportCase :=
  env.supportCases.find? (fun sc => sc.id = support_case_id)

namespace RefundCaseService

/-- `RefundCaseService.create_refund_request`: validate the request shape,
require the support case to exist (`NotFoundException`), be owned by the
requester and be "Open" (`BusinessRuleException`), reject on any product
conflict with the full conflict list attached, else create the Pending case. -/
def create_refund_request (env : Env) (support_case_id customer_id : String)
    (products : List ProductLine) (delivery_dates : List (String × String))
    (today : Date) (now : Nat) (newId : String) :
    Except ServiceError (RefundCase × Env) := do
  RefundCaseRepository.validate_refund_request support_case_id customer_id products
  match findSupportCase env support_case_id with
  | none => .error (.notFoundError "SupportCase" ("ID " ++ support_case_id))
  | some support_case =>
    if support_case.customer_id ≠ customer_id then
      .error (.businessRule "Access denied: Customer does not own this support case")
    else if support_case.status ≠ "Open" then
      .error (.businessRule "Refund requests can only be created from open support cases")
    else
      let conflict_check := RefundCaseRepository.check_existing_refunds
        env.refundCases support_case_id (products.map (fun p => p.product_id))
      if conflict_check.has_conflicts then
        .error (.businessRuleConflicts "Some products already have active refund requests"
          conflict_check.conflicting_refunds)
      else do
        let (refund_case, store) ← RefundCaseRepository.create_refund_case
          env.refundCases support_case_id customer_id support_case.order_id
          products delivery_dates today now newId
        .ok (refund_case, { env with refundCases := store })

/-- `RefundCaseService.get_refund_case`: `NotFoundException` when the refund
id does not exist, `BusinessRuleException` (access denied) when it exists but
belongs to another customer. -/
def get_refund_case (env : Env) (refund_id customer_id : String) :
    Except ServiceError RefundCase :=
  match RefundCaseRepository.find_by_id env.refundCases refund_id with
  | none => .error (.notFoundError "RefundCase" ("ID " ++ refund_id))
  | some refund_case =>
    if refund_case.customer_id ≠ customer_id then
      .error (.businessRule "Access denied: Customer does not own this refund case")
    else
      .ok refund_case

/-- `RefundCaseService.get_refund_cases_by_support_case`: raises the same
access-denied `BusinessRuleException` both when the support case does not
exist and when it is owned by another customer (`if not support_case or
support_case.customer_id != customer_id`). -/
def get_refund_cases_by_support_case (env : Env) (support_case_id customer_id : String) :
    Except ServiceError (List RefundCase) :=
  match findSupportCase env support_case_id with
  | none => .error (.businessRule "Access denied: Customer does not own this support case")
  | some support_case =>
    if support_case.customer_id ≠ customer_id then
      .error (.businessRule "Access denied: Customer does not own this support case")
    else
      .ok (RefundCaseRepository.find_by_support_case env.refundCases support_case_id)

end RefundCaseService

/-- One entry of the eligible/ineligible lists built by
`validate_refund_eligibility`. The source builds plain dicts; the entries of
the "Product not found in support case", "No delivery date available for
product" and "Invalid delivery date format" branches OMIT the `quantity`,
`price`, `delivery_date` and `days_since_delivery` keys, modelled as `none`. -/
structure SvcEntry where
  product_id : String
  quantity : Option Int
  price : Option ℚ
  delivery_date : Option String
  days_since_delivery : Option Int
  eligible : Bool
  reason : String
deriving DecidableEq, Repr

/-- The dict returned by `validate_refund_eligibility`. -/
structure SvcReport where
  eligibility_status : String
  eligible_products : List SvcEntry
  ineligible_products : List SvcEntry
  all_eligible : Bool
  total_eligible_amount : ℚ
  total_ineligible_amount : ℚ
deriving DecidableEq, Repr

/-- The dict comprehension `{p["product_id"]: p for p in support_case.products}`
followed by lookup: the last product with the key wins. -/
def scProductsGet (products : List SCProduct) (pid : String) : Option SCProduct :=
  products.reverse.find? (fun p => p.product_id = pid)

/-- The per-product body of the loop in `validate_refund_eligibility`:
product must be on the support case, must have a truthy delivery date, a
parse failure is CAUGHT here ("Invalid delivery date format"), else the
14-day window decides. Total — the loop itself never raises. -/
def classifySvcLine (today : Date) (scProducts : List SCProduct)
    (delivery_dates : List (String × String)) (pid : String) : SvcEntry :=
  match scProductsGet scProducts pid with
  | none => ⟨pid, none, none, none, none, false, "Product not found in support case"⟩
  | some product =>
    match truthy (dictGet delivery_dates pid) with
    | none => ⟨pid, none, none, none, none, false, "No delivery date available for product"⟩
    | some s =>
      match parseIsoDate s with
      | none => ⟨pid, none, none, none, none, false, "Invalid delivery date format"⟩
      | some d =>
        let days := daysBetween today d
        if days ≤ 14 then
          ⟨pid, some product.quantity, some (product.price.getD 0), some s, some days,
            true, "Within 14-day refund window"⟩
        else
          ⟨pid, some product.quantity, some (product.price.getD 0), some s, some days,
            false, "Exceeds 14-day refund window by " ++ toString (days - 14) ++ " days"⟩

/-- `sum(p["price"] * p["quantity"] for p in l)` over entry dicts: iterate in
order accumulating `price * quantity`; raises `KeyError` at the first entry
that lacks the `price` (or `quantity`) key. -/
def sumAmounts : List SvcEntry → ℚ → Except ServiceError ℚ
  | [], acc => .ok acc
  | e :: l, acc =>
    match e.price with
    | none => .error (.keyError "price")
    | some pr =>
      match e.quantity with
      | none => .error (.keyError "quantity")
      | some q => sumAmounts l (acc + pr * (q : ℚ))

namespace RefundCaseService

/-- `RefundCaseService.validate_refund_eligibility`: access-denied
`BusinessRuleException` when the support case is missing OR owned by another
customer, then classify each requested product id, aggregate the verdict,
and compute the two bucket totals — which raise `KeyError` on entries
lacking a `price` key. -/
def validate_refund_eligibility (env : Env) (support_case_id customer_id : String)
    (product_ids : List String) (delivery_dates : List (String × String))
    (today : Date) : Except ServiceError SvcReport :=
  match findSupportCase env support_case_id with
  | none => .error (.businessRule "Access denied: Customer does not own this support case")
  | some support_case =>
    if support_case.customer_id ≠ customer_id then
      .error (.businessRule "Access denied: Customer does not own this support case")
    else
      let entries := product_ids.map
        (classifySvcLine today support_case.products delivery_dates)
      let eligible_products := entries.filter (fun e => e.eligible)
      let ineligible_products := entries.filter (fun e => !e.eligible)
      let eligibility_status :=
        if ineligible_products.length = 0 then "Eligible"
        else if eligible_products.length > 0 then "Partially Eligible"
        else "Ineligible"
      do
        let total_eligible ← sumAmounts eligible_products 0
        let total_ineligible ← sumAmounts ineligible_products 0
        .ok ⟨eligibility_status, eligible_products, ineligible_products,
          ineligible_products.length = 0, total_eligible, total_ineligible⟩

end RefundCaseService

/-! ## Exception semantics at the store

In Python a transition that raises leaves the persisted store exactly as it
was: the guard fires before any field assignment and nothing is passed to
`update`. The `*Attempt` wrappers give the store observed after a call,
whether it raised or returned. -/

/-- The refund-case store after an `approve_refund` call: unchanged when the
call raised. -/
def approveAttempt (store : List RefundCase) (refund_id agent_id : String)
    (now : Nat) : List RefundCase :=
  match RefundCaseRepository.approve_refund store refund_id agent_id now with
  | .ok (_, store') => store'
  | .error _ => store

/-- The refund-case store after a `reject_refund` call: unchanged when the
call raised. -/
def rejectAttempt (store : List RefundCase) (refund_id agent_id reason : String)
    (now : Nat) : List RefundCase :=
  match RefundCaseRepository.reject_refund store refund_id agent_id reason now with
  | .ok (_, store') => store'
  | .error _ => store

/-- The refund-case store after a `complete_refund` call: unchanged when the
call raised. -/
def completeAttempt (store : List RefundCase) (refund_id : String) (now : Nat) :
    List RefundCase :=
  match RefundCaseRepository.complete_refund store refund_id now with
  | .ok (_, store') => store'
  | .error _ => store

/-- The fields of a refund case that a failed transition must not touch. -/
def RefundCase.auditFields (c : RefundCase) :
    Nat × RefundCaseStatus × Option Nat × Option String × Option String :=
  (c.history.length, c.status, c.processed_at, c.agent_id, c.rejection_reason)

/-! ## Concrete records for witnesses and counterexamples -/

/-- A concrete Pending refund case. -/
def samplePending : RefundCase :=
  { id := "r1", support_case_id := "sc1", customer_id := "c1", order_id := "o1"
    status := .pending, eligibility_status := some .eligible
    total_refund_amount := 20, created_at := 0, processed_at := none
    rejection_reason := none, agent_id := none
    products := [⟨"p1", 2, "Chair", 10, 20, some "2024-03-01", "Eligible"⟩]
    history := [⟨"refund_requested", 0, "c1",
      [("initial_status", "Pending"), ("eligibility", "Eligible")]⟩] }

/-- A concrete Rejected (terminal) refund case. -/
def sampleRejected : RefundCase :=
  { samplePending with
    id := "r2", status := .rejected,
    processed_at := some 3, agent_id := some "agentA",
    rejection_reason := some "damaged" }

/-- A concrete Approved refund case. -/
def sampleApproved : RefundCase :=
  { samplePending with
    id := "r3", status := .approved,
    processed_at := some 4, agent_id := some "agentB" }

/-- A concrete open support case owned by customer c1 with one product p1. -/
def sampleSupportCase : SupportCase :=
  ⟨"sc1", "c1", "o1", "Open", [⟨"p1", 2, some 10⟩]⟩

/-- An environment with the sample support case and no refund cases. -/
def sampleEnv : Env :=
  { supportCases := [sampleSupportCase], refundCases := [] }

/-- An environment with the sample support case and one Pending refund on p1. -/
def sampleEnvWithPending : Env :=
  { supportCases := [sampleSupportCase], refundCases := [samplePending] }

/-- A refund case whose stored delivery date for p1 is malformed. -/
def badDateCase : RefundCase :=
  { samplePending with
    id := "r4",
    products := [⟨"p1", 2, "Chair", 10, 20, some "not-a-date", "Eligible"⟩] }

/-- A Pending case with two lines: p1 delivered 2024-03-01, p2 with no
delivery date recorded. -/
def mixedCase : RefundCase :=
  { samplePending with
    id := "r5",
    products := [⟨"p1", 2, "Chair", 10, 20, some "2024-03-01", "Eligible"⟩,
                 ⟨"p2", 1, "Table", 5, 5, none, "Eligible"⟩] }

/-- `mixedCase` after eligibility recomputation on 2024-03-15. -/
def mixedCaseAfter : RefundCase :=
  { mixedCase with eligibility_status := some .partiallyEligible }

/-- The report of recomputing `mixedCase` eligibility on 2024-03-15. -/
def mixedReport : EligReport :=
  ⟨"Partially Eligible",
   [⟨"p1", true, some "2024-03-01", some 14, "Within 14-day refund window"⟩],
   [⟨"p2", false, none, none, "No delivery date available"⟩], 1, 1⟩

/-- The report of the standalone check on sampleEnv for p1 on 2024-03-15. -/
def sampleSvcReport : SvcReport :=
  ⟨"Eligible",
   [⟨"p1", some 2, some 10, some "2024-03-01", some 14, true,
     "Within 14-day refund window"⟩], [], true, 20, 0⟩

/-- The refund case created from a single line p1 (price 10, quantity 2,
delivered 2024-03-01) on 2024-03-15; the arithmetic is left unevaluated so
the record is definitionally the factory output. -/
def sampleCreated : RefundCase :=
  { id := "r9", support_case_id := "sc1", customer_id := "c1", order_id := "o1",
    status := .pending, eligibility_status := some .eligible,
    total_refund_amount := 0 + (10 : ℚ) * ((2 : Int) : ℚ),
    created_at := 7, processed_at := none, rejection_reason := none, agent_id := none,
    products := [⟨"p1", 2, "", 10, (10 : ℚ) * ((2 : Int) : ℚ), some "2024-03-01",
      "Eligible"⟩],
    history := [⟨"refund_requested", 7, "c1",
      [("initial_status", "Pending"), ("eligibility", "Eligible")]⟩] }

/-! ## Helper lemmas -/

theorem approve_error_of_not_pending (store : List RefundCase) (rid agent : String)
    (now : Nat) (c : RefundCase)
    (hfind : RefundCaseRepository.find_by_id store rid = some c)
    (hnp : c.status ≠ .pending) :
    RefundCaseRepository.approve_refund store rid agent now =
      .error (.businessRule "Only pending refunds can be approved") := by
  simp [RefundCaseRepository.approve_refund, hfind, hnp]

theorem reject_error_of_not_pending (store : List RefundCase) (rid agent reason : String)
    (now : Nat) (c : RefundCase)
    (hfind : RefundCaseRepository.find_by_id store rid = some c)
    (hnp : c.status ≠ .pending) :
    RefundCaseRepository.reject_refund store rid agent reason now =
      .error (.businessRule "Only pending refunds can be rejected") := by
  simp [RefundCaseRepository.reject_refund, hfind, hnp]

theorem complete_error_of_not_approved (store : List RefundCase) (rid : String)
    (now : Nat) (c : RefundCase)
    (hfind : RefundCaseRepository.find_by_id store rid = some c)
    (hna : c.status ≠ .approved) :
    RefundCaseRepository.complete_refund store rid now =
      .error (.businessRule "Only approved refunds can be completed") := by
  simp [RefundCaseRepository.complete_refund, hfind, hna]

theorem approve_ok_of_pending (store : List RefundCase) (rid agent : String)
    (now : Nat) (c : RefundCase)
    (hfind : RefundCaseRepository.find_by_id store rid = some c)
    (hp : c.status = .pending) :
    ∃ r, RefundCaseRepository.approve_refund store rid agent now = .ok r := by
  simp [RefundCaseRepository.approve_refund, hfind, hp, RefundCase.approve_refund,
    Bind.bind, Except.bind]

theorem reject_ok_of_pending (store : List RefundCase) (rid agent reason : String)
    (now : Nat) (c : RefundCase)
    (hfind : RefundCaseRepository.find_by_id store rid = some c)
    (hp : c.status = .pending) :
    ∃ r, RefundCaseRepository.reject_refund store rid agent reason now = .ok r := by
  simp [RefundCaseRepository.reject_refund, hfind, hp, RefundCase.reject_refund,
    Bind.bind, Except.bind]

theorem complete_ok_of_approved (store : List RefundCase) (rid : String)
    (now : Nat) (c : RefundCase)
    (hfind : RefundCaseRepository.find_by_id store rid = some c)
    (ha : c.status = .approved) :
    ∃ r, RefundCaseRepository.complete_refund store rid now = .ok r := by
  simp [RefundCaseRepository.complete_refund, hfind, ha, RefundCase.complete_refund,
    Bind.bind, Except.bind]

/-! ## C1 -/

/-- C1: for an existing refund case, approve and reject succeed exactly when
the status is Pending and complete succeeds exactly when it is Approved; a
transition attempted from any other status fails with the
`BusinessRuleException` whose message names the only valid source state (so
it never silently no-ops), and a Rejected or Completed case admits no
transition at all. -/
theorem transition_guards (store : List RefundCase) (rid agent reason : String)
    (now : Nat) (c : RefundCase)
    (hfind : RefundCaseRepository.find_by_id store rid = some c) :
    ((∃ r, RefundCaseRepository.approve_refund store rid agent now = .ok r) ↔
      c.status = .pending) ∧
    ((∃ r, RefundCaseRepository.reject_refund store rid agent reason now = .ok r) ↔
      c.status = .pending) ∧
    ((∃ r, RefundCaseRepository.complete_refund store rid now = .ok r) ↔
      c.status = .approved) ∧
    (c.status ≠ .pending →
      RefundCaseRepository.approve_refund store rid agent now =
        .error (.businessRule "Only pending refunds can be approved") ∧
      RefundCaseRepository.reject_refund store rid agent reason now =
        .error (.businessRule "Only pending refunds can be rejected")) ∧
    (c.status ≠ .approved →
      RefundCaseRepository.complete_refund store rid now =
        .error (.businessRule "Only approved refunds can be completed")) ∧
    (c.status = .rejected ∨ c.status = .completed →
      (¬ ∃ r, RefundCaseRepository.approve_refund store rid agent now = .ok r) ∧
      (¬ ∃ r, RefundCaseRepository.reject_refund store rid agent reason now = .ok r) ∧
      (¬ ∃ r, RefundCaseRepository.complete_refund store rid now = .ok r)) := by
  have hA : (∃ r, RefundCaseRepository.approve_refund store rid agent now = .ok r) ↔
      c.status = .pending := by
    constructor
    · intro ⟨r, hr⟩
      by_contra hnp
      rw [approve_error_of_not_pending store rid agent now c hfind hnp] at hr
      exact absurd hr (by simp)
    · intro hp
      exact approve_ok_of_pending store rid agent now c hfind hp
  have hR : (∃ r, RefundCaseRepository.reject_refund store rid agent reason now = .ok r) ↔
      c.status = .pending := by
    constructor
    · intro ⟨r, hr⟩
      by_contra hnp
      rw [reject_error_of_not_pending store rid agent reason now c hfind hnp] at hr
      exact absurd hr (by simp)
    · intro hp
      exact reject_ok_of_pending store rid agent reason now c hfind hp
  have hC : (∃ r, RefundCaseRepository.complete_refund store rid now = .ok r) ↔
      c.status = .approved := by
    constructor
    · intro ⟨r, hr⟩
      by_contra hna
      rw [complete_error_of_not_approved store rid now c hfind hna] at hr
      exact absurd hr (by simp)
    · intro ha
      exact complete_ok_of_approved store rid now c hfind ha
  refine ⟨hA, hR, hC, ?_, ?_, ?_⟩
  · intro hnp
    exact ⟨approve_error_of_not_pending store rid agent now c hfind hnp,
      reject_error_of_not_pending store rid agent reason now c hfind hnp⟩
  · intro hna
    exact complete_error_of_not_approved store rid now c hfind hna
  · intro hterm
    have hnp : c.status ≠ .pending := by rcases hterm with h | h <;> simp [h]
    have hna : c.status ≠ .approved := by rcases hterm with h | h <;> simp [h]
    exact ⟨fun h => absurd (hA.mp h) hnp, fun h => absurd (hR.mp h) hnp,
      fun h => absurd (hC.mp h) hna⟩

/-- Witness for C1 at a concrete store: a Rejected case refuses all three
transitions with the documented business-rule errors. -/
theorem transition_guards_witness :
    ((∃ r, RefundCaseRepository.approve_refund [sampleRejected] "r2" "agentA" 9 = .ok r) ↔
      sampleRejected.status = .pending) ∧
    ((∃ r, RefundCaseRepository.reject_refund [sampleRejected] "r2" "agentA" "dup" 9 = .ok r) ↔
      sampleRejected.status = .pending) ∧
    ((∃ r, RefundCaseRepository.complete_refund [sampleRejected] "r2" 9 = .ok r) ↔
      sampleRejected.status = .approved) ∧
    (sampleRejected.status ≠ .pending →
      RefundCaseRepository.approve_refund [sampleRejected] "r2" "agentA" 9 =
        .error (.businessRule "Only pending refunds can be approved") ∧
      RefundCaseRepository.reject_refund [sampleRejected] "r2" "agentA" "dup" 9 =
        .error (.businessRule "Only pending refunds can be rejected")) ∧
    (sampleRejected.status ≠ .approved →
      RefundCaseRepository.complete_refund [sampleRejected] "r2" 9 =
        .error (.businessRule "Only approved refunds can be completed")) ∧
    (sampleRejected.status = .rejected ∨ sampleRejected.status = .completed →
      (¬ ∃ r, RefundCaseRepository.approve_refund [sampleRejected] "r2" "agentA" 9 = .ok r) ∧
      (¬ ∃ r, RefundCaseRepository.reject_refund [sampleRejected] "r2" "agentA" "dup" 9 = .ok r) ∧
      (¬ ∃ r, RefundCaseRepository.complete_refund [sampleRejected] "r2" 9 = .ok r)) :=
  transition_guards [sampleRejected] "r2" "agentA" "dup" 9 sampleRejected (by
    simp [RefundCaseRepository.find_by_id, sampleRejected, samplePending, List.find?])

/-! ## C2 -/

/-- C2: a failed transition (approve or reject on a non-Pending case, complete
on a non-Approved case) raises before mutating anything, so the stored record
after the attempt is exactly the prior record: same history length, status,
processed_at, agent_id and rejection_reason (indeed the whole store is
unchanged). -/
theorem failed_transition_preserves_record (store : List RefundCase)
    (rid agent reason : String) (now : Nat) (c : RefundCase)
    (hfind : RefundCaseRepository.find_by_id store rid = some c) :
    (c.status ≠ .pending →
      approveAttempt store rid agent now = store ∧
      (RefundCaseRepository.find_by_id (approveAttempt store rid agent now) rid).map
        RefundCase.auditFields = some c.auditFields) ∧
    (c.status ≠ .pending →
      rejectAttempt store rid agent reason now = store ∧
      (RefundCaseRepository.find_by_id (rejectAttempt store rid agent reason now) rid).map
        RefundCase.auditFields = some c.auditFields) ∧
    (c.status ≠ .approved →
      completeAttempt store rid now = store ∧
      (RefundCaseRepository.find_by_id (completeAttempt store rid now) rid).map
        RefundCase.auditFields = some c.auditFields) := by
  refine ⟨fun hnp => ?_, fun hnp => ?_, fun hna => ?_⟩
  · have hs : approveAttempt store rid agent now = store := by
      unfold approveAttempt
      rw [approve_error_of_not_pending store rid agent now c hfind hnp]
    exact ⟨hs, by rw [hs, hfind]; rfl⟩
  · have hs : rejectAttempt store rid agent reason now = store := by
      unfold rejectAttempt
      rw [reject_error_of_not_pending store rid agent reason now c hfind hnp]
    exact ⟨hs, by rw [hs, hfind]; rfl⟩
  · have hs : completeAttempt store rid now = store := by
      unfold completeAttempt
      rw [complete_error_of_not_approved store rid now c hfind hna]
    exact ⟨hs, by rw [hs, hfind]; rfl⟩

/-- Witness for C2: a second approve on an already-Approved case fails and
leaves the store, and in particular the case's history length, unchanged. -/
theorem failed_transition_preserves_record_witness :
    (sampleApproved.status ≠ RefundCaseStatus.pending →
      approveAttempt [sampleApproved] "r3" "agentC" 9 = [sampleApproved] ∧
      (RefundCaseRepository.find_by_id (approveAttempt [sampleApproved] "r3" "agentC" 9) "r3").map
        RefundCase.auditFields = some sampleApproved.auditFields) ∧
    (sampleApproved.status ≠ RefundCaseStatus.pending →
      rejectAttempt [sampleApproved] "r3" "agentC" "dup" 9 = [sampleApproved] ∧
      (RefundCaseRepository.find_by_id (rejectAttempt [sampleApproved] "r3" "agentC" "dup" 9) "r3").map
        RefundCase.auditFields = some sampleApproved.auditFields) ∧
    (sampleApproved.status ≠ RefundCaseStatus.approved →
      completeAttempt [sampleApproved] "r3" 9 = [sampleApproved] ∧
      (RefundCaseRepository.find_by_id (completeAttempt [sampleApproved] "r3" 9) "r3").map
        RefundCase.auditFields = some sampleApproved.auditFields) :=
  failed_transition_preserves_record [sampleApproved] "r3" "agentC" "dup" 9 sampleApproved
    (by simp [RefundCaseRepository.find_by_id, sampleApproved, samplePending, List.find?])

/-! ## C3 -/

/-- C3 evidence (the claim fails on the code): with a malformed delivery date
string for product p1, the creation-time calculation
(`RefundCase.calculate_eligibility`, which has no try/except around
`fromisoformat`) propagates the `ValueError` instead of marking the line
ineligible; the standalone check catches the parse error and records the
"Invalid delivery date format" entry, but that entry has no `price` key, so
the `total_ineligible_amount` generator raises `KeyError` — the call still
does not terminate normally. The factory, and hence creation, propagates the
same `ValueError`. -/
theorem eligibility_raises_on_malformed_date :
    badDateCase.calculate_eligibility [("p1", "not-a-date")] ⟨2024, 3, 15⟩ =
      .error (.valueError "Invalid isoformat string: not-a-date") ∧
    RefundCaseService.validate_refund_eligibility sampleEnv "sc1" "c1" ["p1"]
      [("p1", "not-a-date")] ⟨2024, 3, 15⟩ = .error (.keyError "price") ∧
    RefundCase.create_from_support_case "sc1" "c1" "o1"
      [⟨"p1", 2, none, some 10⟩] [("p1", "not-a-date")] ⟨2024, 3, 15⟩ 0 "r9" =
      .error (.valueError "Invalid isoformat string: not-a-date") :=
  ⟨rfl, rfl, rfl⟩

/-! ## C4 -/

theorem classifyModelLine_error_shape (today : Date) (dd : List (String × String))
    (pid : String) (e : ServiceError)
    (h : classifyModelLine today dd pid = .error e) : ∃ m, e = .valueError m := by
  unfold classifyModelLine at h
  split at h
  · split at h
    · exact ⟨_, (Except.error.inj h).symm⟩
    · dsimp only at h
      split at h <;> cases h
  · cases h

theorem classifyModelLines_error_shape (today : Date) (dd : List (String × String))
    (ps : List RefundProduct) (e : ServiceError)
    (h : classifyModelLines today dd ps = .error e) : ∃ m, e = .valueError m := by
  induction ps with
  | nil => cases h
  | cons p ps ih =>
    rw [classifyModelLines] at h
    cases hline : classifyModelLine today dd p.product_id with
    | error e2 =>
      rw [hline] at h
      cases h
      exact classifyModelLine_error_shape today dd p.product_id e hline
    | ok entry =>
      rw [hline] at h
      cases htail : classifyModelLines today dd ps with
      | error e3 =>
        rw [htail] at h
        cases h
        exact ih htail
      | ok entries =>
        rw [htail] at h
        cases h

theorem calculate_eligibility_error_shape (c : RefundCase)
    (dd : List (String × String)) (today : Date) (e : ServiceError)
    (h : c.calculate_eligibility dd today = .error e) : ∃ m, e = .valueError m := by
  rw [RefundCase.calculate_eligibility] at h
  cases hls : classifyModelLines today dd c.products with
  | error e2 =>
    rw [hls] at h
    cases h
    exact classifyModelLines_error_shape today dd c.products e hls
  | ok entries =>
    rw [hls] at h
    cases h

theorem create_from_support_case_error_shape (scid cid oid : String)
    (products : List ProductLine) (dd : List (String × String)) (today : Date)
    (now : Nat) (newId : String) (e : ServiceError)
    (h : RefundCase.create_from_support_case scid cid oid products dd today now newId =
      .error e) : ∃ m, e = .valueError m := by
  rw [RefundCase.create_from_support_case] at h
  dsimp only at h
  cases hce : RefundCase.calculate_eligibility _ dd today with
  | error e2 =>
    rw [hce] at h
    cases h
    exact calculate_eligibility_error_shape _ dd today e hce
  | ok pr =>
    rw [hce] at h
    cases h

theorem bnot_isEmpty_of_ne_nil {α : Type} {l : List α} (h : l ≠ []) :
    (!l.isEmpty) = true := by
  cases l with
  | nil => exact absurd rfl h
  | cons a t => rfl

theorem conflict_mem_iff (store : List RefundCase) (scid : String)
    (pids : List String) (k : Conflict) :
    k ∈ (RefundCaseRepository.check_existing_refunds store scid pids).conflicting_refunds ↔
      ∃ rc ∈ store, rc.support_case_id = scid ∧ rc.id = k.refund_id ∧
        rc.status = k.status ∧ (rc.status = .pending ∨ rc.status = .approved) ∧
        ∃ p ∈ rc.products, p.product_id = k.product_id ∧ p.product_id ∈ pids := by
  obtain ⟨kr, kp, ks⟩ := k
  simp only [RefundCaseRepository.check_existing_refunds,
    RefundCaseRepository.find_by_support_case, List.mem_flatMap, List.mem_filter,
    List.mem_map, decide_eq_true_eq]
  constructor
  · rintro ⟨rc, ⟨⟨hrc, hsc⟩, hact⟩, p, ⟨hp, hpid⟩, heq⟩
    cases heq
    exact ⟨rc, hrc, hsc, rfl, rfl, hact, p, hp, rfl, hpid⟩
  · rintro ⟨rc, hrc, hsc, hid, hst, hact, p, hp, hpid, hmem⟩
    subst hid
    subst hst
    subst hpid
    exact ⟨rc, ⟨⟨hrc, hsc⟩, hact⟩, p, ⟨hp, hmem⟩, rfl⟩

theorem has_conflicts_iff (store : List RefundCase) (scid : String)
    (pids : List String) :
    (RefundCaseRepository.check_existing_refunds store scid pids).has_conflicts = true ↔
      ∃ rc ∈ store, rc.support_case_id = scid ∧
        (rc.status = .pending ∨ rc.status = .approved) ∧
        ∃ p ∈ rc.products, p.product_id ∈ pids := by
  constructor
  · intro h
    have hne : (RefundCaseRepository.check_existing_refunds store scid
        pids).conflicting_refunds ≠ [] := by
      intro hnil
      simp only [RefundCaseRepository.check_existing_refunds] at h hnil
      rw [hnil] at h
      simp at h
    obtain ⟨k, hk⟩ := List.exists_mem_of_ne_nil _ hne
    obtain ⟨rc, hrc, hsc, _, hst, hact, p, hp, _, hmem⟩ :=
      (conflict_mem_iff store scid pids k).mp hk
    exact ⟨rc, hrc, hsc, hact, p, hp, hmem⟩
  · rintro ⟨rc, hrc, hsc, hact, p, hp, hmem⟩
    have hk : (⟨rc.id, p.product_id, rc.status⟩ : Conflict) ∈
        (RefundCaseRepository.check_existing_refunds store scid pids).conflicting_refunds :=
      (conflict_mem_iff store scid pids ⟨rc.id, p.product_id, rc.status⟩).mpr
        ⟨rc, hrc, hsc, rfl, rfl, hact, p, hp, rfl, hmem⟩
    exact bnot_isEmpty_of_ne_nil (List.ne_nil_of_mem hk)


theorem create_refund_case_error_shape (store : List RefundCase)
    (scid cid oid : String) (products : List ProductLine)
    (dd : List (String × String)) (today : Date) (now : Nat) (newId : String)
    (e : ServiceError)
    (h : RefundCaseRepository.create_refund_case store scid cid oid products dd
      today now newId = .error e) : ∃ m, e = .valueError m := by
  rw [RefundCaseRepository.create_refund_case] at h
  cases hcr : RefundCase.create_from_support_case scid cid oid products dd today now newId with
  | error e2 =>
    rw [hcr] at h
    cases h
    exact create_from_support_case_error_shape _ _ _ _ _ _ _ _ _ hcr
  | ok rc =>
    rw [hcr] at h
    cases h

/-- C4: assuming the request passes shape validation against an existing,
owned, open support case, creation is rejected with the
`BusinessRuleException` carrying the full conflict list exactly when some
requested product id appears in a Pending-or-Approved refund case of the same
support case; the attached list contains precisely the conflicting
(refund id, product id, status) triples, and a store whose refunds for this
support case are all Rejected or Completed never has conflicts. -/
theorem conflict_detection (env : Env) (scid cid : String)
    (products : List ProductLine) (dd : List (String × String)) (today : Date)
    (now : Nat) (newId : String) (sc : SupportCase)
    (hval : RefundCaseRepository.validate_refund_request scid cid products = .ok ())
    (hsc : findSupportCase env scid = some sc)
    (hown : sc.customer_id = cid) (hopen : sc.status = "Open") :
    (RefundCaseService.create_refund_request env scid cid products dd today now newId =
        .error (.businessRuleConflicts "Some products already have active refund requests"
          (RefundCaseRepository.check_existing_refunds env.refundCases scid
            (products.map (fun p => p.product_id))).conflicting_refunds) ↔
      (RefundCaseRepository.check_existing_refunds env.refundCases scid
        (products.map (fun p => p.product_id))).has_conflicts = true) ∧
    ((RefundCaseRepository.check_existing_refunds env.refundCases scid
        (products.map (fun p => p.product_id))).has_conflicts = true ↔
      ∃ rc ∈ env.refundCases, rc.support_case_id = scid ∧
        (rc.status = .pending ∨ rc.status = .approved) ∧
        ∃ p ∈ rc.products, p.product_id ∈ products.map (fun p => p.product_id)) ∧
    (∀ k : Conflict,
      k ∈ (RefundCaseRepository.check_existing_refunds env.refundCases scid
        (products.map (fun p => p.product_id))).conflicting_refunds ↔
      ∃ rc ∈ env.refundCases, rc.support_case_id = scid ∧ rc.id = k.refund_id ∧
        rc.status = k.status ∧ (rc.status = .pending ∨ rc.status = .approved) ∧
        ∃ p ∈ rc.products, p.product_id = k.product_id ∧
          p.product_id ∈ products.map (fun p => p.product_id)) ∧
    ((∀ rc ∈ env.refundCases, rc.support_case_id = scid →
        rc.status = .rejected ∨ rc.status = .completed) →
      (RefundCaseRepository.check_existing_refunds env.refundCases scid
        (products.map (fun p => p.product_id))).has_conflicts = false) := by
  have hmain : RefundCaseService.create_refund_request env scid cid products dd today now newId =
      (if (RefundCaseRepository.check_existing_refunds env.refundCases scid
            (products.map (fun p => p.product_id))).has_conflicts then
        .error (.businessRuleConflicts "Some products already have active refund requests"
          (RefundCaseRepository.check_existing_refunds env.refundCases scid
            (products.map (fun p => p.product_id))).conflicting_refunds)
      else do
        let (refund_case, store) ← RefundCaseRepository.create_refund_case
          env.refundCases scid cid sc.order_id products dd today now newId
        .ok (refund_case, { env with refundCases := store })) := by
    simp [RefundCaseService.create_refund_request, hval, hsc, hown, hopen,
      Bind.bind, Except.bind]
  refine ⟨?_, has_conflicts_iff env.refundCases scid (products.map (fun p => p.product_id)),
    fun k => conflict_mem_iff env.refundCases scid (products.map (fun p => p.product_id)) k,
    ?_⟩
  · rw [hmain]
    by_cases hcc : (RefundCaseRepository.check_existing_refunds env.refundCases scid
        (products.map (fun p => p.product_id))).has_conflicts = true
    · simp [hcc]
    · rw [if_neg (by simp [Bool.not_eq_true] at hcc; simp [hcc])]
      constructor
      · intro h
        exfalso
        cases hcr : RefundCaseRepository.create_refund_case env.refundCases scid cid
            sc.order_id products dd today now newId with
        | error e =>
          rw [hcr] at h
          cases h
          obtain ⟨m, hm⟩ := create_refund_case_error_shape _ _ _ _ _ _ _ _ _ _ hcr
          cases hm
        | ok pr =>
          rw [hcr] at h
          cases h
      · intro h
        exact absurd h hcc
  · intro hterm
    cases hb : (RefundCaseRepository.check_existing_refunds env.refundCases scid
        (products.map (fun p => p.product_id))).has_conflicts with
    | false => rfl
    | true =>
      exfalso
      obtain ⟨rc, hrc, hscid, hact, -⟩ :=
        (has_conflicts_iff env.refundCases scid (products.map (fun p => p.product_id))).mp hb
      rcases hterm rc hrc hscid with h | h <;> rcases hact with h2 | h2 <;> simp [h] at h2

/-- Witness for C4: with one Pending refund on p1 already recorded, creating a
second refund for p1 on the same support case is rejected with the conflict
list. -/
theorem conflict_detection_witness :
    RefundCaseService.create_refund_request sampleEnvWithPending "sc1" "c1"
        [⟨"p1", 2, none, some 10⟩] [("p1", "2024-03-01")] ⟨2024, 3, 15⟩ 9 "r9" =
      .error (.businessRuleConflicts "Some products already have active refund requests"
        (RefundCaseRepository.check_existing_refunds sampleEnvWithPending.refundCases "sc1"
          (([⟨"p1", 2, none, some 10⟩] : List ProductLine).map
            (fun p => p.product_id))).conflicting_refunds) :=
  ((conflict_detection sampleEnvWithPending "sc1" "c1" [⟨"p1", 2, none, some 10⟩]
      [("p1", "2024-03-01")] ⟨2024, 3, 15⟩ 9 "r9" sampleSupportCase rfl rfl rfl rfl).1).mpr rfl

/-! ## C5 -/

theorem sumAmounts_ok (l : List SvcEntry) (acc : ℚ)
    (h : ∀ e ∈ l, e.price ≠ none ∧ e.quantity ≠ none) :
    ∃ q, sumAmounts l acc = .ok q := by
  induction l generalizing acc with
  | nil => exact ⟨acc, rfl⟩
  | cons e l ih =>
    obtain ⟨hp, hq⟩ := h e (List.mem_cons_self e l)
    cases hpe : e.price with
    | none => exact absurd hpe hp
    | some pr =>
      cases hqe : e.quantity with
      | none => exact absurd hqe hq
      | some q =>
        simp only [sumAmounts, hpe, hqe]
        exact ih _ (fun e2 he2 => h e2 (List.mem_cons_of_mem e he2))

theorem sumAmounts_missing_price (l : List SvcEntry) (acc : ℚ)
    (hshape : ∀ e ∈ l, e.price = none ∨ (e.price ≠ none ∧ e.quantity ≠ none))
    (hex : ∃ e ∈ l, e.price = none) :
    sumAmounts l acc = .error (.keyError "price") := by
  induction l generalizing acc with
  | nil =>
    obtain ⟨e, he, -⟩ := hex
    cases he
  | cons e l ih =>
    cases hpe : e.price with
    | none => simp only [sumAmounts, hpe]
    | some pr =>
      rcases hshape e (List.mem_cons_self e l) with h | ⟨-, hq⟩
      · rw [hpe] at h
        cases h
      · cases hqe : e.quantity with
        | none => exact absurd hqe hq
        | some q =>
          simp only [sumAmounts, hpe, hqe]
          apply ih _ (fun e2 he2 => hshape e2 (List.mem_cons_of_mem e he2))
          obtain ⟨e2, he2, hpe2⟩ := hex
          rcases List.mem_cons.mp he2 with rfl | h2
          · rw [hpe] at hpe2
            cases hpe2
          · exact ⟨e2, h2, hpe2⟩

theorem classifySvcLine_shape (today : Date) (scps : List SCProduct)
    (dd : List (String × String)) (pid : String) :
    ((classifySvcLine today scps dd pid).price = none ∨
      ((classifySvcLine today scps dd pid).price ≠ none ∧
        (classifySvcLine today scps dd pid).quantity ≠ none)) ∧
    ((classifySvcLine today scps dd pid).eligible = true →
      (classifySvcLine today scps dd pid).price ≠ none ∧
      (classifySvcLine today scps dd pid).quantity ≠ none) := by
  unfold classifySvcLine
  split
  · simp
  · split
    · simp
    · split
      · simp
      · dsimp only
        split <;> simp

theorem classifySvcLine_no_date (today : Date) (scps : List SCProduct)
    (dd : List (String × String)) (pid : String)
    (h : truthy (dictGet dd pid) = none) :
    (classifySvcLine today scps dd pid).eligible = false ∧
    (classifySvcLine today scps dd pid).price = none := by
  unfold classifySvcLine
  cases hg : scProductsGet scps pid with
  | none => simp
  | some p => simp [h]

theorem validate_eligibility_keyerror (env : Env) (scid cid : String)
    (pids : List String) (dd : List (String × String)) (today : Date)
    (sc : SupportCase) (pid : String)
    (hsc : findSupportCase env scid = some sc) (hcid : sc.customer_id = cid)
    (hmem : pid ∈ pids) (hnd : truthy (dictGet dd pid) = none) :
    RefundCaseService.validate_refund_eligibility env scid cid pids dd today =
      .error (.keyError "price") := by
  unfold RefundCaseService.validate_refund_eligibility
  rw [hsc]
  dsimp only
  rw [if_neg (by simp [hcid])]
  have helig : ∀ e ∈ (pids.map (classifySvcLine today sc.products dd)).filter
      (fun e => e.eligible), e.price ≠ none ∧ e.quantity ≠ none := by
    intro e he
    obtain ⟨hm, hel⟩ := List.mem_filter.mp he
    obtain ⟨p2, -, rfl⟩ := List.mem_map.mp hm
    exact (classifySvcLine_shape today sc.products dd p2).2 hel
  obtain ⟨qe, hqe⟩ := sumAmounts_ok _ 0 helig
  have hineq : sumAmounts ((pids.map (classifySvcLine today sc.products dd)).filter
      (fun e => !e.eligible)) 0 = .error (.keyError "price") := by
    apply sumAmounts_missing_price
    · intro e he
      obtain ⟨hm, -⟩ := List.mem_filter.mp he
      obtain ⟨p2, -, rfl⟩ := List.mem_map.mp hm
      exact (classifySvcLine_shape today sc.products dd p2).1
    · refine ⟨classifySvcLine today sc.products dd pid, ?_, 
        (classifySvcLine_no_date today sc.products dd pid hnd).2⟩
      apply List.mem_filter.mpr
      refine ⟨List.mem_map_of_mem _ hmem, ?_⟩
      simp [(classifySvcLine_no_date today sc.products dd pid hnd).1]
  simp only [Bind.bind, Except.bind, hqe, hineq]

/-- C5 counterexample: for a line with no delivery date, the standalone check
does not produce an ineligible line with reason "No delivery date available":
its per-line entry carries the different reason "No delivery date available
for product", and the call as a whole then raises `KeyError` on the ineligible
total instead of returning a report at all. -/
theorem svc_no_date_counterexample :
    RefundCaseService.validate_refund_eligibility sampleEnv "sc1" "c1" ["p1"] []
      ⟨2024, 3, 15⟩ = .error (.keyError "price") ∧
    (classifySvcLine ⟨2024, 3, 15⟩ sampleSupportCase.products [] "p1").reason =
      "No delivery date available for product" ∧
    "No delivery date available for product" ≠ "No delivery date available" :=
  ⟨rfl, rfl, by decide⟩

/-- C5 (amended): with a supplied, well-formed delivery date, a line is
eligible in both calculators exactly when the whole-day difference is at most
14, and at 15 days the recorded overage is 1; a line with no delivery date is
ineligible with reason "No delivery date available" in the creation-time
calculation, while the standalone check records reason "No delivery date
available for product" for it and then fails with `KeyError` computing the
ineligible total instead of returning. -/
theorem day_window_line_rule (today d : Date) (dd : List (String × String))
    (scps : List SCProduct) (pid s : String) :
    (truthy (dictGet dd pid) = some s → parseIsoDate s = some d →
      ((∃ e, classifyModelLine today dd pid = .ok e ∧ e.eligible = true) ↔
        daysBetween today d ≤ 14) ∧
      (∀ p, scProductsGet scps pid = some p →
        ((classifySvcLine today scps dd pid).eligible = true ↔
          daysBetween today d ≤ 14)) ∧
      (daysBetween today d = 15 →
        classifyModelLine today dd pid =
          .ok ⟨pid, false, some s, some 15, "Exceeds 14-day refund window by 1 days"⟩ ∧
        (∀ p, scProductsGet scps pid = some p →
          classifySvcLine today scps dd pid =
            ⟨pid, some p.quantity, some (p.price.getD 0), some s, some 15, false,
              "Exceeds 14-day refund window by 1 days"⟩))) ∧
    (truthy (dictGet dd pid) = none →
      classifyModelLine today dd pid =
        .ok ⟨pid, false, none, none, "No delivery date available"⟩ ∧
      (∀ p, scProductsGet scps pid = some p →
        classifySvcLine today scps dd pid =
          ⟨pid, none, none, none, none, false,
            "No delivery date available for product"⟩)) ∧
    (∀ env scid cid pids sc, findSupportCase env scid = some sc →
      sc.customer_id = cid → pid ∈ pids → truthy (dictGet dd pid) = none →
      RefundCaseService.validate_refund_eligibility env scid cid pids dd today =
        .error (.keyError "price")) := by
  refine ⟨fun hs hparse => ⟨?_, ?_, fun h15 => ⟨?_, ?_⟩⟩, fun hnd => ⟨?_, ?_⟩, ?_⟩
  · simp only [classifyModelLine, hs, hparse]
    by_cases hle : daysBetween today d ≤ 14
    · simp [hle]
    · simp [hle]
  · intro p hp
    simp only [classifySvcLine, hp, hs, hparse]
    by_cases hle : daysBetween today d ≤ 14
    · simp [hle]
    · simp [hle]
  · simp only [classifyModelLine, hs, hparse, h15]
    rw [if_neg (by omega)]
    norm_num
    rfl
  · intro p hp
    simp only [classifySvcLine, hp, hs, hparse, h15]
    rw [if_neg (by omega)]
    norm_num
    rfl
  · simp only [classifyModelLine, hnd]
  · intro p hp
    simp only [classifySvcLine, hp, hnd]
  · intro env scid cid pids sc hsc hcid hmem hnd
    exact validate_eligibility_keyerror env scid cid pids dd today sc pid hsc hcid hmem hnd

/-- Witness for C5 at concrete dates: 2024-03-01 delivered, evaluated
2024-03-15 (14 days, eligible) and 2024-03-16 (15 days, overage 1); and the
no-date behaviours of both calculators. -/
theorem day_window_line_rule_witness :
    ((∃ e, classifyModelLine ⟨2024, 3, 15⟩ [("p1", "2024-03-01")] "p1" = .ok e ∧
        e.eligible = true) ↔ daysBetween ⟨2024, 3, 15⟩ ⟨2024, 3, 1⟩ ≤ 14) ∧
    (classifyModelLine ⟨2024, 3, 16⟩ [("p1", "2024-03-01")] "p1" =
      .ok ⟨"p1", false, some "2024-03-01", some 15,
        "Exceeds 14-day refund window by 1 days"⟩) ∧
    (classifyModelLine ⟨2024, 3, 15⟩ [] "p1" =
      .ok ⟨"p1", false, none, none, "No delivery date available"⟩) ∧
    (classifySvcLine ⟨2024, 3, 15⟩ sampleSupportCase.products [] "p1" =
      ⟨"p1", none, none, none, none, false,
        "No delivery date available for product"⟩) ∧
    (RefundCaseService.validate_refund_eligibility sampleEnv "sc1" "c1" ["p1"]
      [("p1", "")] ⟨2024, 3, 15⟩ = .error (.keyError "price")) :=
  ⟨((day_window_line_rule ⟨2024, 3, 15⟩ ⟨2024, 3, 1⟩ [("p1", "2024-03-01")]
      sampleSupportCase.products "p1" "2024-03-01").1 rfl rfl).1,
   (((day_window_line_rule ⟨2024, 3, 16⟩ ⟨2024, 3, 1⟩ [("p1", "2024-03-01")]
      sampleSupportCase.products "p1" "2024-03-01").1 rfl rfl).2.2 rfl).1,
   ((day_window_line_rule ⟨2024, 3, 15⟩ ⟨2024, 3, 1⟩ []
      sampleSupportCase.products "p1" "x").2.1 rfl).1,
   ((day_window_line_rule ⟨2024, 3, 15⟩ ⟨2024, 3, 1⟩ []
      sampleSupportCase.products "p1" "x").2.1 rfl).2 ⟨"p1", 2, some 10⟩ rfl,
   (day_window_line_rule ⟨2024, 3, 15⟩ ⟨2024, 3, 1⟩ [("p1", "")]
      sampleSupportCase.products "p1" "x").2.2 sampleEnv "sc1" "c1" ["p1"]
      sampleSupportCase rfl rfl (List.mem_cons_self "p1" []) rfl⟩

/-! ## C6 -/

theorem length_filter_split {α : Type} (l : List α) (p : α → Bool) :
    (l.filter p).length + (l.filter (fun a => !p a)).length = l.length := by
  induction l with
  | nil => rfl
  | cons a l ih => by_cases h : p a <;> simp [List.filter_cons, h, ← ih] <;> omega

theorem classifyModelLines_ok_length (today : Date) (dd : List (String × String))
    (ps : List RefundProduct) (entries : List EligEntry)
    (h : classifyModelLines today dd ps = .ok entries) : entries.length = ps.length := by
  induction ps generalizing entries with
  | nil =>
    cases h
    rfl
  | cons p ps ih =>
    rw [classifyModelLines] at h
    cases hline : classifyModelLine today dd p.product_id with
    | error e =>
      rw [hline] at h
      cases h
    | ok e =>
      rw [hline] at h
      cases htail : classifyModelLines today dd ps with
      | error e2 =>
        rw [htail] at h
        cases h
      | ok es =>
        rw [htail] at h
        cases h
        simp [ih es htail]

theorem verdict_string_cases (E I N : Nat) (hEI : E + I = N) (hN : N ≠ 0)
    (st : String)
    (hst : st = (if I = 0 then "Eligible"
      else if E > 0 then "Partially Eligible" else "Ineligible")) :
    (E = N ↔ st = "Eligible") ∧ (E = 0 ↔ st = "Ineligible") ∧
    ((0 < E ∧ E < N) ↔ st = "Partially Eligible") := by
  subst hst
  by_cases hI : I = 0
  · rw [if_pos hI]
    exact ⟨iff_of_true (by omega) rfl, iff_of_false (by omega) (by decide),
      iff_of_false (by omega) (by decide)⟩
  · rw [if_neg hI]
    by_cases hE : E > 0
    · rw [if_pos hE]
      exact ⟨iff_of_false (by omega) (by decide), iff_of_false (by omega) (by decide),
        iff_of_true ⟨hE, by omega⟩ rfl⟩
    · rw [if_neg hE]
      exact ⟨iff_of_false (by omega) (by decide), iff_of_true (by omega) rfl,
        iff_of_false (by omega) (by decide)⟩

/-- C6: with N product lines of which k are judged eligible, the aggregate
verdict of the creation-time calculation (both the report string and the
enum stored on the case) and of the standalone check is Eligible iff k = N,
Ineligible iff k = 0, and Partially Eligible iff 0 < k < N. -/
theorem aggregate_verdict (c : RefundCase) (dd : List (String × String))
    (today : Date) (c2 : RefundCase) (rep : EligReport)
    (hok : c.calculate_eligibility dd today = .ok (c2, rep))
    (hne : c.products ≠ [])
    (env : Env) (scid cid : String) (pids : List String)
    (dd2 : List (String × String)) (today2 : Date) (rep2 : SvcReport)
    (hok2 : RefundCaseService.validate_refund_eligibility env scid cid pids dd2
      today2 = .ok rep2)
    (hpne : pids ≠ []) :
    (rep.eligible_count + rep.ineligible_count = c.products.length) ∧
    (rep.eligible_count = c.products.length ↔ rep.eligibility_status = "Eligible") ∧
    (rep.eligible_count = 0 ↔ rep.eligibility_status = "Ineligible") ∧
    ((0 < rep.eligible_count ∧ rep.eligible_count < c.products.length) ↔
      rep.eligibility_status = "Partially Eligible") ∧
    (rep.eligibility_status = "Eligible" ↔ c2.eligibility_status = some .eligible) ∧
    (rep.eligibility_status = "Ineligible" ↔ c2.eligibility_status = some .ineligible) ∧
    (rep.eligibility_status = "Partially Eligible" ↔
      c2.eligibility_status = some .partiallyEligible) ∧
    (rep2.eligible_products.length + rep2.ineligible_products.length = pids.length) ∧
    (rep2.eligible_products.length = pids.length ↔ rep2.eligibility_status = "Eligible") ∧
    (rep2.eligible_products.length = 0 ↔ rep2.eligibility_status = "Ineligible") ∧
    ((0 < rep2.eligible_products.length ∧ rep2.eligible_products.length < pids.length) ↔
      rep2.eligibility_status = "Partially Eligible") := by
  have hmodel : (rep.eligible_count + rep.ineligible_count = c.products.length) ∧
      (rep.eligible_count = c.products.length ↔ rep.eligibility_status = "Eligible") ∧
      (rep.eligible_count = 0 ↔ rep.eligibility_status = "Ineligible") ∧
      ((0 < rep.eligible_count ∧ rep.eligible_count < c.products.length) ↔
        rep.eligibility_status = "Partially Eligible") ∧
      (rep.eligibility_status = "Eligible" ↔ c2.eligibility_status = some .eligible) ∧
      (rep.eligibility_status = "Ineligible" ↔ c2.eligibility_status = some .ineligible) ∧
      (rep.eligibility_status = "Partially Eligible" ↔
        c2.eligibility_status = some .partiallyEligible) := by
    rw [RefundCase.calculate_eligibility] at hok
    cases hls : classifyModelLines today dd c.products with
    | error e =>
      rw [hls] at hok
      cases hok
    | ok entries =>
      rw [hls] at hok
      simp only [Bind.bind, Except.bind] at hok
      rw [Except.ok.injEq, Prod.mk.injEq] at hok
      obtain ⟨hc2, hrep⟩ := hok
      subst hc2
      subst hrep
      have hlen := classifyModelLines_ok_length today dd c.products entries hls
      have hsplit := length_filter_split entries (fun e => e.eligible)
      have hN : c.products.length ≠ 0 := by
        intro h0
        exact hne (List.eq_nil_of_length_eq_zero h0)
      set E := (entries.filter (fun e => e.eligible)).length with hE
      set I := (entries.filter (fun e => !e.eligible)).length with hI
      have hEI : E + I = c.products.length := by rw [hE, hI]; rw [hsplit, hlen]
      have hverdict := verdict_string_cases E I c.products.length hEI hN
        (if I = 0 then EligibilityStatus.eligible
          else if E > 0 then .partiallyEligible else .ineligible).value
        (by by_cases h1 : I = 0 <;> by_cases h2 : E > 0 <;>
          simp [h1, h2, EligibilityStatus.value])
      refine ⟨hEI, hverdict.1, hverdict.2.1, hverdict.2.2, ?_, ?_, ?_⟩ <;>
        by_cases h1 : I = 0 <;> by_cases h2 : E > 0 <;>
        simp [h1, h2, EligibilityStatus.value]
  refine ⟨hmodel.1, hmodel.2.1, hmodel.2.2.1, hmodel.2.2.2.1, hmodel.2.2.2.2.1,
    hmodel.2.2.2.2.2.1, hmodel.2.2.2.2.2.2, ?_⟩
  rw [RefundCaseService.validate_refund_eligibility] at hok2
  cases hsc : findSupportCase env scid with
  | none =>
    rw [hsc] at hok2
    cases hok2
  | some sc =>
    rw [hsc] at hok2
    dsimp only at hok2
    by_cases hcid : sc.customer_id = cid
    · rw [if_neg (by simp [hcid])] at hok2
      set entries := pids.map (classifySvcLine today2 sc.products dd2) with hent
      have hlen : entries.length = pids.length := by rw [hent, List.length_map]
      have hsplit := length_filter_split entries (fun e => e.eligible)
      have hN : pids.length ≠ 0 := by
        intro h0
        exact hpne (List.eq_nil_of_length_eq_zero h0)
      set E := (entries.filter (fun e => e.eligible)).length with hE
      set I := (entries.filter (fun e => !e.eligible)).length with hI
      have hEI : E + I = pids.length := by rw [hE, hI, hsplit, hlen]
      cases hse : sumAmounts (entries.filter (fun e => e.eligible)) 0 with
      | error e =>
        rw [hse] at hok2
        cases hok2
      | ok te =>
        rw [hse] at hok2
        cases hsi : sumAmounts (entries.filter (fun e => !e.eligible)) 0 with
        | error e =>
          rw [hsi] at hok2
          cases hok2
        | ok ti =>
          rw [hsi] at hok2
          simp only [Bind.bind, Except.bind] at hok2
          rw [Except.ok.injEq] at hok2
          subst hok2
          have hverdict := verdict_string_cases E I pids.length hEI hN
            (if I = 0 then "Eligible"
              else if E > 0 then "Partially Eligible" else "Ineligible") rfl
          exact ⟨hEI, hverdict.1, hverdict.2.1, hverdict.2.2⟩
    · rw [if_pos (by simp [hcid])] at hok2
      cases hok2

/-- Witness for C6: `mixedCase` (one eligible line, one no-date line) yields a
Partially Eligible verdict and the standalone check on sampleEnv (one eligible
line) yields Eligible, both consistent with the k-of-N rule. -/
theorem aggregate_verdict_witness :
    (mixedReport.eligible_count + mixedReport.ineligible_count =
      mixedCase.products.length) ∧
    (mixedReport.eligible_count = mixedCase.products.length ↔
      mixedReport.eligibility_status = "Eligible") ∧
    (mixedReport.eligible_count = 0 ↔ mixedReport.eligibility_status = "Ineligible") ∧
    ((0 < mixedReport.eligible_count ∧
        mixedReport.eligible_count < mixedCase.products.length) ↔
      mixedReport.eligibility_status = "Partially Eligible") ∧
    (mixedReport.eligibility_status = "Eligible" ↔
      mixedCaseAfter.eligibility_status = some .eligible) ∧
    (mixedReport.eligibility_status = "Ineligible" ↔
      mixedCaseAfter.eligibility_status = some .ineligible) ∧
    (mixedReport.eligibility_status = "Partially Eligible" ↔
      mixedCaseAfter.eligibility_status = some .partiallyEligible) ∧
    (sampleSvcReport.eligible_products.length +
      sampleSvcReport.ineligible_products.length = (["p1"] : List String).length) ∧
    (sampleSvcReport.eligible_products.length = (["p1"] : List String).length ↔
      sampleSvcReport.eligibility_status = "Eligible") ∧
    (sampleSvcReport.eligible_products.length = 0 ↔
      sampleSvcReport.eligibility_status = "Ineligible") ∧
    ((0 < sampleSvcReport.eligible_products.length ∧
        sampleSvcReport.eligible_products.length < (["p1"] : List String).length) ↔
      sampleSvcReport.eligibility_status = "Partially Eligible") :=
  by
  have hok2 : RefundCaseService.validate_refund_eligibility sampleEnv "sc1" "c1"
      ["p1"] [("p1", "2024-03-01")] ⟨2024, 3, 15⟩ = .ok sampleSvcReport := by
    simp only [RefundCaseService.validate_refund_eligibility]
    rw [show findSupportCase sampleEnv "sc1" = some sampleSupportCase from rfl]
    dsimp only
    rw [if_neg (by decide)]
    rw [show (["p1"] : List String).map (classifySvcLine ⟨2024, 3, 15⟩
        sampleSupportCase.products [("p1", "2024-03-01")]) =
      [⟨"p1", some 2, some 10, some "2024-03-01", some 14, true,
        "Within 14-day refund window"⟩] from rfl]
    norm_num [sumAmounts, Bind.bind, Except.bind, List.filter]
    rfl
  exact aggregate_verdict mixedCase [("p1", "2024-03-01")] ⟨2024, 3, 15⟩
    mixedCaseAfter mixedReport rfl (by decide) sampleEnv "sc1" "c1" ["p1"]
    [("p1", "2024-03-01")] ⟨2024, 3, 15⟩ sampleSvcReport hok2 (by decide)

/-! ## C7 -/

/-- C7 counterexample: listing refunds for a support case id that does not
exist at all fails with the access-denied `BusinessRuleException`, not with a
`NotFoundException` — the two failures are not distinguished on this path. -/
theorem missing_support_case_not_distinguished :
    RefundCaseService.get_refund_cases_by_support_case ⟨[], []⟩ "sc-missing" "c1" =
      .error (.businessRule "Access denied: Customer does not own this support case") ∧
    RefundCaseService.get_refund_cases_by_support_case ⟨[], []⟩ "sc-missing" "c1" ≠
      .error (.notFoundError "SupportCase" "ID sc-missing") :=
  ⟨rfl, by
    intro h
    rw [show RefundCaseService.get_refund_cases_by_support_case ⟨[], []⟩ "sc-missing" "c1" =
      .error (.businessRule "Access denied: Customer does not own this support case")
      from rfl] at h
    cases h⟩

/-- C7 (amended): GetRefund distinguishes the two failures — a missing refund
id fails with `NotFoundException` and an existing refund owned by another
customer fails with access denied — but ListRefundsForSupportCase fails with
the same access-denied `BusinessRuleException` both when the support case does
not exist and when it is owned by another customer. -/
theorem read_access_control (env : Env) (rid scid cid : String) :
    (RefundCaseRepository.find_by_id env.refundCases rid = none →
      RefundCaseService.get_refund_case env rid cid =
        .error (.notFoundError "RefundCase" ("ID " ++ rid))) ∧
    (∀ c, RefundCaseRepository.find_by_id env.refundCases rid = some c →
      c.customer_id ≠ cid →
      RefundCaseService.get_refund_case env rid cid =
        .error (.businessRule "Access denied: Customer does not own this refund case")) ∧
    (∀ c, RefundCaseRepository.find_by_id env.refundCases rid = some c →
      c.customer_id = cid →
      RefundCaseService.get_refund_case env rid cid = .ok c) ∧
    (findSupportCase env scid = none →
      RefundCaseService.get_refund_cases_by_support_case env scid cid =
        .error (.businessRule "Access denied: Customer does not own this support case")) ∧
    (∀ sc, findSupportCase env scid = some sc → sc.customer_id ≠ cid →
      RefundCaseService.get_refund_cases_by_support_case env scid cid =
        .error (.businessRule "Access denied: Customer does not own this support case")) ∧
    (∀ sc, findSupportCase env scid = some sc → sc.customer_id = cid →
      RefundCaseService.get_refund_cases_by_support_case env scid cid =
        .ok (RefundCaseRepository.find_by_support_case env.refundCases scid)) := by
  refine ⟨?_, ?_, ?_, ?_, ?_, ?_⟩
  · intro h
    simp [RefundCaseService.get_refund_case, h]
  · intro c h hne
    simp [RefundCaseService.get_refund_case, h, hne]
  · intro c h he
    simp [RefundCaseService.get_refund_case, h, he]
  · intro h
    simp [RefundCaseService.get_refund_cases_by_support_case, h]
  · intro sc h hne
    simp [RefundCaseService.get_refund_cases_by_support_case, h, hne]
  · intro sc h he
    simp [RefundCaseService.get_refund_cases_by_support_case, h, he]

/-- Witness for C7: in an environment holding only refund r1 (owned by c1)
and support case sc1 (owned by c1), a missing refund id is a not-found
failure; customer c2 reading r1 or listing sc1 is denied; a missing support
case is (also) denied; and the owner reads both successfully. -/
theorem read_access_control_witness :
    (RefundCaseService.get_refund_case ⟨[sampleSupportCase], [samplePending]⟩
      "r-missing" "c1" = .error (.notFoundError "RefundCase" "ID r-missing")) ∧
    (RefundCaseService.get_refund_case ⟨[sampleSupportCase], [samplePending]⟩
      "r1" "c2" =
      .error (.businessRule "Access denied: Customer does not own this refund case")) ∧
    (RefundCaseService.get_refund_case ⟨[sampleSupportCase], [samplePending]⟩
      "r1" "c1" = .ok samplePending) ∧
    (RefundCaseService.get_refund_cases_by_support_case
      ⟨[sampleSupportCase], [samplePending]⟩ "sc-missing" "c1" =
      .error (.businessRule "Access denied: Customer does not own this support case")) ∧
    (RefundCaseService.get_refund_cases_by_support_case
      ⟨[sampleSupportCase], [samplePending]⟩ "sc1" "c2" =
      .error (.businessRule "Access denied: Customer does not own this support case")) ∧
    (RefundCaseService.get_refund_cases_by_support_case
      ⟨[sampleSupportCase], [samplePending]⟩ "sc1" "c1" =
      .ok (RefundCaseRepository.find_by_support_case [samplePending] "sc1")) :=
  ⟨(read_access_control ⟨[sampleSupportCase], [samplePending]⟩ "r-missing" "sc1" "c1").1
      rfl,
   (read_access_control ⟨[sampleSupportCase], [samplePending]⟩ "r1" "sc1" "c2").2.1
      samplePending rfl (by decide),
   (read_access_control ⟨[sampleSupportCase], [samplePending]⟩ "r1" "sc1" "c1").2.2.1
      samplePending rfl rfl,
   (read_access_control ⟨[sampleSupportCase], [samplePending]⟩ "r1" "sc-missing" "c1").2.2.2.1
      rfl,
   (read_access_control ⟨[sampleSupportCase], [samplePending]⟩ "r1" "sc1" "c2").2.2.2.2.1
      sampleSupportCase rfl (by decide),
   (read_access_control ⟨[sampleSupportCase], [samplePending]⟩ "r1" "sc1" "c1").2.2.2.2.2
      sampleSupportCase rfl rfl⟩

/-! ## C8 -/

theorem except_bind_ok {ε α β : Type} (x : Except ε α) (f : α → Except ε β) (b : β)
    (h : (x >>= f) = .ok b) : ∃ a, x = .ok a ∧ f a = .ok b := by
  cases x with
  | error e => exact absurd h (by simp [Bind.bind, Except.bind])
  | ok a => exact ⟨a, rfl, by simpa [Bind.bind, Except.bind] using h⟩

theorem foldl_price_sum (products : List ProductLine) (acc : ℚ) :
    products.foldl (fun acc p => acc + (p.price.getD 0) * (p.quantity : ℚ)) acc =
      acc + (products.map (fun p => (p.price.getD 0) * (p.quantity : ℚ))).sum := by
  induction products generalizing acc with
  | nil => simp
  | cons p ps ih =>
    rw [List.foldl_cons, ih, List.map_cons, List.sum_cons]
    ring

theorem calculate_eligibility_total (r : RefundCase) (dd2 : List (String × String))
    (t2 : Date) (r2 : RefundCase) (rep : EligReport)
    (h : r.calculate_eligibility dd2 t2 = .ok (r2, rep)) :
    r2.total_refund_amount = r.total_refund_amount ∧ r2.products = r.products := by
  rw [RefundCase.calculate_eligibility] at h
  cases hls : classifyModelLines t2 dd2 r.products with
  | error e =>
    rw [hls] at h
    cases h
  | ok entries =>
    rw [hls] at h
    simp only [Bind.bind, Except.bind] at h
    rw [Except.ok.injEq, Prod.mk.injEq] at h
    obtain ⟨h1, -⟩ := h
    rw [← h1]
    exact ⟨rfl, rfl⟩

/-- C8: a successfully created case has `total_refund_amount` equal to the
sum of `price * quantity` over the submitted lines (a missing price counts
as 0), and no transition nor eligibility recomputation changes
`total_refund_amount`. -/
theorem total_amount_invariant (scid cid oid : String) (products : List ProductLine)
    (dd : List (String × String)) (today : Date) (now : Nat) (newId : String)
    (c : RefundCase)
    (hok : RefundCase.create_from_support_case scid cid oid products dd today now
      newId = .ok c) :
    c.total_refund_amount =
      (products.map (fun p => (p.price.getD 0) * (p.quantity : ℚ))).sum ∧
    (∀ (r : RefundCase) (agent : String) (n : Nat) (r2 : RefundCase),
      r.approve_refund agent n = .ok r2 →
      r2.total_refund_amount = r.total_refund_amount) ∧
    (∀ (r : RefundCase) (agent reason : String) (n : Nat) (r2 : RefundCase),
      r.reject_refund agent reason n = .ok r2 →
      r2.total_refund_amount = r.total_refund_amount) ∧
    (∀ (r : RefundCase) (n : Nat) (r2 : RefundCase),
      r.complete_refund n = .ok r2 →
      r2.total_refund_amount = r.total_refund_amount) ∧
    (∀ (r : RefundCase) (dd2 : List (String × String)) (t2 : Date)
      (r2 : RefundCase) (rep : EligReport),
      r.calculate_eligibility dd2 t2 = .ok (r2, rep) →
      r2.total_refund_amount = r.total_refund_amount) := by
  refine ⟨?_, ?_, ?_, ?_, ?_⟩
  · rw [RefundCase.create_from_support_case] at hok
    dsimp only at hok
    obtain ⟨⟨c1, rep⟩, hce, hok2⟩ := except_bind_ok _ _ _ hok
    dsimp only at hok2
    rw [Except.ok.injEq] at hok2
    have htot := (calculate_eligibility_total _ dd today c1 rep hce).1
    rw [← hok2]
    show c1.total_refund_amount = _
    rw [htot]
    show products.foldl (fun acc p => acc + (p.price.getD 0) * (p.quantity : ℚ)) 0 = _
    rw [foldl_price_sum]
    ring
  · intro r agent n r2 h
    rw [RefundCase.approve_refund] at h
    split at h
    · cases h
    · rw [Except.ok.injEq] at h
      rw [← h]
      rfl
  · intro r agent reason n r2 h
    rw [RefundCase.reject_refund] at h
    split at h
    · cases h
    · rw [Except.ok.injEq] at h
      rw [← h]
      rfl
  · intro r n r2 h
    rw [RefundCase.complete_refund] at h
    split at h
    · cases h
    · rw [Except.ok.injEq] at h
      rw [← h]
      rfl
  · intro r dd2 t2 r2 rep h
    exact (calculate_eligibility_total r dd2 t2 r2 rep h).1

/-- Witness for C8: the case created from line p1 (price 10, quantity 2) has
total refund amount equal to the summed price*quantity of the request. -/
theorem total_amount_invariant_witness :
    sampleCreated.total_refund_amount =
      (([⟨"p1", 2, none, some 10⟩] : List ProductLine).map
        (fun p => (p.price.getD 0) * (p.quantity : ℚ))).sum :=
  (total_amount_invariant "sc1" "c1" "o1" [⟨"p1", 2, none, some 10⟩]
    [("p1", "2024-03-01")] ⟨2024, 3, 15⟩ 7 "r9" sampleCreated rfl).1

/-! ## C9 -/

/-- C9: every product line stored by the factory carries the per-line
`eligibility` field "Eligible", whatever the computed case-level verdict; and
neither eligibility recomputation nor approve/reject/complete ever rewrites
the stored `products` (so the field stays "Eligible" forever). -/
theorem per_line_eligibility_constant (scid cid oid : String)
    (products : List ProductLine) (dd : List (String × String)) (today : Date)
    (now : Nat) (newId : String) (c : RefundCase)
    (hok : RefundCase.create_from_support_case scid cid oid products dd today now
      newId = .ok c) :
    (∀ p ∈ c.products, p.eligibility = "Eligible") ∧
    (∀ (r : RefundCase) (agent : String) (n : Nat) (r2 : RefundCase),
      r.approve_refund agent n = .ok r2 → r2.products = r.products) ∧
    (∀ (r : RefundCase) (agent reason : String) (n : Nat) (r2 : RefundCase),
      r.reject_refund agent reason n = .ok r2 → r2.products = r.products) ∧
    (∀ (r : RefundCase) (n : Nat) (r2 : RefundCase),
      r.complete_refund n = .ok r2 → r2.products = r.products) ∧
    (∀ (r : RefundCase) (dd2 : List (String × String)) (t2 : Date)
      (r2 : RefundCase) (rep : EligReport),
      r.calculate_eligibility dd2 t2 = .ok (r2, rep) → r2.products = r.products) := by
  refine ⟨?_, ?_, ?_, ?_, ?_⟩
  · rw [RefundCase.create_from_support_case] at hok
    dsimp only at hok
    obtain ⟨⟨c1, rep⟩, hce, hok2⟩ := except_bind_ok _ _ _ hok
    dsimp only at hok2
    rw [Except.ok.injEq] at hok2
    have hprod := (calculate_eligibility_total _ dd today c1 rep hce).2
    rw [← hok2]
    intro p hp
    have hmem : p ∈ c1.products := hp
    rw [hprod] at hmem
    dsimp only at hmem
    obtain ⟨q, -, rfl⟩ := List.mem_map.mp hmem
    rfl
  · intro r agent n r2 h
    rw [RefundCase.approve_refund] at h
    split at h
    · cases h
    · rw [Except.ok.injEq] at h
      rw [← h]
      rfl
  · intro r agent reason n r2 h
    rw [RefundCase.reject_refund] at h
    split at h
    · cases h
    · rw [Except.ok.injEq] at h
      rw [← h]
      rfl
  · intro r n r2 h
    rw [RefundCase.complete_refund] at h
    split at h
    · cases h
    · rw [Except.ok.injEq] at h
      rw [← h]
      rfl
  · intro r dd2 t2 r2 rep h
    exact (calculate_eligibility_total r dd2 t2 r2 rep h).2

/-- Witness for C9: the single stored line of the concretely created case has
eligibility "Eligible". -/
theorem per_line_eligibility_constant_witness :
    (⟨"p1", 2, "", 10, (10 : ℚ) * ((2 : Int) : ℚ), some "2024-03-01", "Eligible"⟩ :
      RefundProduct).eligibility = "Eligible" :=
  (per_line_eligibility_constant "sc1" "c1" "o1" [⟨"p1", 2, none, some 10⟩]
    [("p1", "2024-03-01")] ⟨2024, 3, 15⟩ 7 "r9" sampleCreated rfl).1
    ⟨"p1", 2, "", 10, (10 : ℚ) * ((2 : Int) : ℚ), some "2024-03-01", "Eligible"⟩
    (by simp [sampleCreated])

/-! ## C10 -/

/-- C10: the standalone eligibility check called by the owning customer of an
existing support case with an empty product-id list returns both buckets
empty, verdict "Eligible", all_eligible true, and both monetary totals 0. -/
theorem empty_check_eligible (env : Env) (scid cid : String)
    (dd : List (String × String)) (today : Date) (sc : SupportCase)
    (hsc : findSupportCase env scid = some sc) (hcid : sc.customer_id = cid) :
    RefundCaseService.validate_refund_eligibility env scid cid [] dd today =
      .ok ⟨"Eligible", [], [], true, 0, 0⟩ := by
  unfold RefundCaseService.validate_refund_eligibility
  rw [hsc]
  dsimp only
  rw [if_neg (by simp [hcid])]
  rfl

/-- Witness for C10: the empty check against sampleEnv returns the all-zero
Eligible report. -/
theorem empty_check_eligible_witness :
    RefundCaseService.validate_refund_eligibility sampleEnv "sc1" "c1" [] []
      ⟨2024, 3, 15⟩ = .ok ⟨"Eligible", [], [], true, 0, 0⟩ :=
  empty_check_eligible sampleEnv "sc1" "c1" [] ⟨2024, 3, 15⟩ sampleSupportCase rfl rfl

end FurnitureShop
